import Mathlib

/-!
Verification development for the rideshare backend's ride-joining /
seat-reservation / payment-reconciliation subsystem.

The Go services are shallowly embedded as pure functions over an explicit
database state `DB` (lists of ride, participant, payment and user rows).
Each service method that runs inside one database transaction is embedded
as a function `DB → args → DB × Except SvcError β`: on an error result the
returned state is the pre-state (the Go code rolls the transaction back),
and on `.ok` the returned state is the committed post-state.  Generated
identifiers (`uuid.New()`) and external Stripe outcomes are passed in as
explicit arguments.
-/

namespace Rideshare

/-- Ride lifecycle status (`models.RideStatus`, stored as TEXT). -/
inductive RideStatus
  | active
  | archived
  | cancelled
deriving DecidableEq, Repr

/-- Participant lifecycle status (`models.ParticipantStatus`). -/
inductive PStatus
  | pendingPayment
  | active
  | left
  | cancelledRide
deriving DecidableEq, Repr

/-- Payment status (`models.PaymentStatus`). -/
inductive PayStatus
  | pending
  | succeeded
  | failed
deriving DecidableEq, Repr

/-- A row of the `rides` table (the columns the core logic reads). -/
structure Ride where
  id : Nat
  userId : Nat
  totalSeats : Nat
  status : RideStatus
deriving DecidableEq, Repr

/-- A row of the `participants` table. -/
structure Participant where
  id : Nat
  userId : Nat
  rideId : Nat
  status : PStatus
deriving DecidableEq, Repr

/-- A row of the `payments` table.  `participantId` is a nullable foreign
key; `intentId` models the `stripe_payment_intent_id` column. -/
structure Payment where
  id : Nat
  userId : Nat
  rideId : Nat
  participantId : Option Nat
  intentId : Nat
  status : PayStatus
  amount : Int
  currency : String
deriving DecidableEq, Repr

/-- The columns of the `users` table read by the payment flows. -/
structure UserRow where
  id : Nat
  stripeCustomerId : Option String
  stripeDefaultPaymentMethodId : Option String
  deleted : Bool
deriving DecidableEq, Repr

/-- The database state visible to the core subsystem. -/
structure DB where
  rides : List Ride
  participants : List Participant
  payments : List Payment
  users : List UserRow
deriving DecidableEq, Repr

/-- Error outcomes of the embedded service methods; each constructor
corresponds to one distinct error message returned by the Go code. -/
inductive SvcError
  | rideNotFound
  | rideNotActive
  | rideFull
  | selfJoin
  | alreadyJoined
  | unexpectedStatus
  | userNotFound
  | noStripeCustomer
  | noPaymentMethod
  | notJoined
  | wrongParticipantStatus
  | paymentFailed
  | paymentNotSucceeded
  | paymentRowNotFound
  | nullParticipantLink
  | notActiveParticipant
  | unauthorized
  | signatureInvalid
deriving DecidableEq, Repr

/-- `SELECT COUNT(*) FROM participants WHERE ride_id = $1 AND status = 'active'`. -/
def countActive (ps : List Participant) (rideId : Nat) : Nat :=
  (ps.filter (fun p => decide (p.rideId = rideId ∧ p.status = PStatus.active))).length

/-- `SELECT ... FROM rides WHERE id = $1` (`QueryRow`: first matching row). -/
def findRide (rs : List Ride) (rideId : Nat) : Option Ride :=
  rs.find? (fun r => decide (r.id = rideId))

/-- `SELECT id, status FROM participants WHERE user_id = $1 AND ride_id = $2`. -/
def findParticipation (ps : List Participant) (userId rideId : Nat) : Option Participant :=
  ps.find? (fun p => decide (p.userId = userId ∧ p.rideId = rideId))

/-- The row transformer of
`UPDATE participants SET status = $1 WHERE id = $2` (used for reviving a
`left` row on both rejoin paths). -/
def setParticipantStatus (pid : Nat) (st : PStatus) (ps : List Participant) :
    List Participant :=
  ps.map (fun p => if p.id = pid then { p with status := st } else p)

/-- `RideService.JoinRide` (part_002): transactional manual-flow join.
`newPid` stands for the freshly generated participant UUID. -/
def JoinRide (db : DB) (rideId userId newPid : Nat) : DB × Except SvcError Participant :=
  match findRide db.rides rideId with
  | none => (db, .error .rideNotFound)
  | some ride =>
    if ride.status ≠ RideStatus.active then (db, .error .rideNotActive)
    else if countActive db.participants rideId ≥ ride.totalSeats then (db, .error .rideFull)
    else if ride.userId = userId then (db, .error .selfJoin)
    else
      match findParticipation db.participants userId rideId with
      | some ex =>
        match ex.status with
        | .active => (db, .error .alreadyJoined)
        | .pendingPayment => (db, .error .alreadyJoined)
        | .left =>
          let parts := setParticipantStatus ex.id PStatus.pendingPayment db.participants
          ({ db with participants := parts }, .ok { ex with status := PStatus.pendingPayment })
        | .cancelledRide => (db, .error .unexpectedStatus)
      | none =>
        let newP : Participant :=
          { id := newPid, userId := userId, rideId := rideId, status := PStatus.pendingPayment }
        ({ db with participants := db.participants ++ [newP] }, .ok newP)

/-- `RideService.ValidateRideForJoiningTx` (part_002): the validation half
of the capacity gate used by the automatic flow.  Pure read: it performs
no write inside its transaction. -/
def ValidateRideForJoiningTx (db : DB) (rideId userId : Nat) : Except SvcError Ride :=
  match findRide db.rides rideId with
  | none => .error .rideNotFound
  | some ride =>
    if ride.status ≠ RideStatus.active then .error .rideNotActive
    else if countActive db.participants rideId ≥ ride.totalSeats then .error .rideFull
    else if ride.userId = userId then .error .selfJoin
    else if 0 < (db.participants.filter
        (fun p => decide (p.rideId = rideId ∧ p.userId = userId ∧ p.status = PStatus.active))).length
      then .error .alreadyJoined
    else .ok ride

/-- `const fixedPaymentAmount int64 = 200` (part_003). -/
def fixedPaymentAmount : Int := 200

/-- `const paymentCurrency string = "eur"` (part_003). -/
def paymentCurrency : String := "eur"

/-- The fields of `models.CreatePaymentIntentResponse` the spec talks about. -/
structure CreatePaymentIntentResponse where
  paymentId : Nat
  amount : Int
  currency : String
deriving DecidableEq, Repr

/-- `PaymentService.CreatePaymentIntent` (part_003): manual-confirm flow.
`newPaymentId` is the generated payment UUID and `intentId` the id of the
Stripe PaymentIntent returned by the external call. -/
def CreatePaymentIntent (db : DB) (rideId userId newPaymentId intentId : Nat) :
    DB × Except SvcError CreatePaymentIntentResponse :=
  match findParticipation db.participants userId rideId with
  | none => (db, .error .notJoined)
  | some part =>
    if part.status ≠ PStatus.pendingPayment then (db, .error .wrongParticipantStatus)
    else
      let payment : Payment :=
        { id := newPaymentId, userId := userId, rideId := rideId,
          participantId := some part.id, intentId := intentId,
          status := PayStatus.pending, amount := fixedPaymentAmount,
          currency := paymentCurrency }
      ({ db with payments := db.payments ++ [payment] },
       .ok { paymentId := newPaymentId, amount := fixedPaymentAmount,
             currency := paymentCurrency })

/-- The row transformer of
`UPDATE payments SET status = 'succeeded' WHERE stripe_payment_intent_id = $2 AND status = 'pending'`. -/
def succeedPayment (intentId : Nat) (p : Payment) : Payment :=
  if p.intentId = intentId ∧ p.status = PayStatus.pending
  then { p with status := PayStatus.succeeded } else p

/-- The row transformer of
`UPDATE participants SET status = 'active' WHERE id = $2 AND status = 'pending_payment'`. -/
def activateParticipant (pid : Nat) (q : Participant) : Participant :=
  if q.id = pid ∧ q.status = PStatus.pendingPayment
  then { q with status := PStatus.active } else q

/-- The row transformer of
`UPDATE payments SET status = 'failed' WHERE stripe_payment_intent_id = $2 AND status = 'pending'`. -/
def failPayment (intentId : Nat) (p : Payment) : Payment :=
  if p.intentId = intentId ∧ p.status = PayStatus.pending
  then { p with status := PayStatus.failed } else p

/-- `PaymentService.handlePaymentIntentSucceeded` (part_003): one
transaction that promotes the payment row and then the linked participant,
each under an "only if current status is X" guard.  A zero-row payment
update is tolerated; a missing payment row (or a NULL `participant_id`,
which fails the `Scan` into `uuid.UUID`) aborts and rolls back. -/
def handlePaymentIntentSucceeded (db : DB) (intentId : Nat) : DB × Except SvcError Unit :=
  let pays := db.payments.map (succeedPayment intentId)
  match pays.find? (fun p => decide (p.intentId = intentId)) with
  | none => (db, .error .paymentRowNotFound)
  | some pay =>
    match pay.participantId with
    | none => (db, .error .nullParticipantLink)
    | some pid =>
      let parts := db.participants.map (activateParticipant pid)
      ({ db with payments := pays, participants := parts }, .ok ())

/-- `PaymentService.handlePaymentIntentFailed` (part_003): a single guarded
UPDATE on the payment row; always acknowledges (returns nil), even when
zero rows matched. -/
def handlePaymentIntentFailed (db : DB) (intentId : Nat) : DB × Except SvcError Unit :=
  ({ db with payments := db.payments.map (failPayment intentId) }, .ok ())

/-- `PaymentService.handleSetupIntentSucceeded` (part_003): stores the
payment-method reference on the user row; missing metadata degrades to an
acknowledged no-op. -/
def handleSetupIntentSucceeded (db : DB) (appUserId : Option Nat)
    (paymentMethodId : Option String) : DB × Except SvcError Unit :=
  match paymentMethodId with
  | none => (db, .ok ())
  | some pm =>
    if pm = "" then (db, .ok ())
    else
      match appUserId with
      | none => (db, .ok ())
      | some uid =>
        let users := db.users.map
          (fun u => if u.id = uid then { u with stripeDefaultPaymentMethodId := some pm } else u)
        ({ db with users := users }, .ok ())

/-- The recognized webhook event shapes after JSON parsing. -/
inductive StripeEvent
  | paymentSucceeded (intentId : Nat)
  | paymentFailedEv (intentId : Nat)
  | setupSucceeded (appUserId : Option Nat) (paymentMethodId : Option String)
  | unrecognized
deriving DecidableEq, Repr

/-- `PaymentService.HandleStripeWebhook` (part_003): verify the signature,
then dispatch on the event type; unrecognized event types are acknowledged
without action. -/
def HandleStripeWebhook (db : DB) (signatureValid : Bool) (ev : StripeEvent) :
    DB × Except SvcError Unit :=
  if signatureValid = false then (db, .error .signatureInvalid)
  else
    match ev with
    | .paymentSucceeded i => handlePaymentIntentSucceeded db i
    | .paymentFailedEv i => handlePaymentIntentFailed db i
    | .setupSucceeded u pm => handleSetupIntentSucceeded db u pm
    | .unrecognized => (db, .ok ())

/-- `PaymentHandler.HandleStripeWebhook` (payment_handler.go): the HTTP
layer writes 400 for every error returned by the service and 200 on
success. -/
def webhookHTTPStatus (r : Except SvcError Unit) : Nat :=
  match r with
  | .ok _ => 200
  | .error _ => 400

/-- The outcome of `stripeClient.CreateAndConfirmPaymentIntent`: either the
call errors, or it returns a PaymentIntent with some id whose status may or
may not be `succeeded`. -/
inductive ChargeOutcome
  | chargeErr
  | chargeStatus (intentId : Nat) (succeeded : Bool)
deriving DecidableEq, Repr

/-- Whether the off-session charge outcome is anything other than an
immediately succeeded PaymentIntent. -/
def chargeFailed : ChargeOutcome → Bool
  | .chargeErr => true
  | .chargeStatus _ ok => !ok

/-- The Go checks `v.Valid && v.String != ""` on a `sql.NullString`. -/
def hasVal (o : Option String) : Bool :=
  match o with
  | none => false
  | some s => decide (s ≠ "")

/-- Steps 1-3 of `PaymentService.JoinRideAutomatically` (part_003):
validation, Stripe-detail lookup, and participant insert/revival, all in
the open transaction.  Returns the uncommitted transaction state, the
participant id to link the payment to, and the `needsPayment` flag (false
exactly on the rejoin-after-leaving path). -/
def joinAutoPhase1 (db : DB) (rideId userId newPid : Nat) :
    Except SvcError (DB × Nat × Bool) :=
  match ValidateRideForJoiningTx db rideId userId with
  | .error e => .error e
  | .ok _ =>
    match db.users.find? (fun u => decide (u.id = userId ∧ u.deleted = false)) with
    | none => .error .userNotFound
    | some u =>
      if hasVal u.stripeCustomerId = false then .error .noStripeCustomer
      else if hasVal u.stripeDefaultPaymentMethodId = false then .error .noPaymentMethod
      else
        match findParticipation db.participants userId rideId with
        | some ex =>
          match ex.status with
          | .active => .error .alreadyJoined
          | .pendingPayment => .error .alreadyJoined
          | .left =>
            let parts := setParticipantStatus ex.id PStatus.active db.participants
            .ok ({ db with participants := parts }, ex.id, false)
          | .cancelledRide => .error .unexpectedStatus
        | none =>
          let newP : Participant :=
            { id := newPid, userId := userId, rideId := rideId, status := PStatus.active }
          .ok ({ db with participants := db.participants ++ [newP] }, newPid, true)

/-- `PaymentService.JoinRideAutomatically` (part_003): phase 1 above, then
the off-session charge (only when `needsPayment`), then the payment-row
insert, then commit.  Any error path returns with the transaction rolled
back, i.e. the pre-state. -/
def JoinRideAutomatically (db : DB) (rideId userId newPid : Nat)
    (charge : ChargeOutcome) (newPaymentId : Nat) : DB × Except SvcError Unit :=
  match joinAutoPhase1 db rideId userId newPid with
  | .error e => (db, .error e)
  | .ok (db1, pid, needsPayment) =>
    if needsPayment then
      match charge with
      | .chargeErr => (db, .error .paymentFailed)
      | .chargeStatus intentId ok =>
        if ok = false then (db, .error .paymentNotSucceeded)
        else
          let pay : Payment :=
            { id := newPaymentId, userId := userId, rideId := rideId,
              participantId := some pid, intentId := intentId,
              status := PayStatus.succeeded, amount := fixedPaymentAmount,
              currency := paymentCurrency }
          ({ db1 with payments := db1.payments ++ [pay] }, .ok ())
    else (db1, .ok ())

/-- `RideService.LeaveRide` (part_002): one guarded UPDATE; on zero rows
affected, distinguishes a missing ride from a non-participant. -/
def LeaveRide (db : DB) (rideId userId : Nat) : DB × Except SvcError Unit :=
  let hit := fun (p : Participant) =>
    decide (p.rideId = rideId ∧ p.userId = userId ∧
      (p.status = PStatus.active ∨ p.status = PStatus.pendingPayment))
  let parts := db.participants.map
    (fun p => if hit p then { p with status := PStatus.left } else p)
  if db.participants.any hit then ({ db with participants := parts }, .ok ())
  else if db.rides.any (fun r => decide (r.id = rideId)) then (db, .error .notActiveParticipant)
  else (db, .error .rideNotFound)

/-- The row transformer of the cancellation cascade
`UPDATE participants SET status = 'cancelled_ride' WHERE ride_id = $2 AND status IN ('active','pending_payment')`. -/
def cancelParticipant (rideId : Nat) (p : Participant) : Participant :=
  if p.rideId = rideId ∧ (p.status = PStatus.active ∨ p.status = PStatus.pendingPayment)
  then { p with status := PStatus.cancelledRide } else p

/-- `payments.participant_id REFERENCES participants(id) ON DELETE SET NULL`
(migration 004): when the participant rows of `rideId` are deleted, a payment
referencing one of them loses the link. -/
def nullRefsToRideParticipants (rideId : Nat) (ps : List Participant) (w : Payment) : Payment :=
  match w.participantId with
  | none => w
  | some pid =>
    if ps.any (fun q => decide (q.id = pid ∧ q.rideId = rideId))
    then { w with participantId := none } else w

/-- `RideService.DeleteRide`, part_002 version: after the ownership check it
explicitly deletes all participant rows of the ride (`ON DELETE SET NULL` on
`payments.participant_id`, migration 004) and then the ride row itself, which
cascades onto the ride's payment rows (`payments.ride_id ... ON DELETE
CASCADE`, migration 004); returns whether active participants existed. -/
def DeleteRide_v2 (db : DB) (rideId userId : Nat) : DB × Except SvcError Bool :=
  match findRide db.rides rideId with
  | none => (db, .error .rideNotFound)
  | some r =>
    let cnt := countActive db.participants rideId
    if r.userId ≠ userId then (db, .error .unauthorized)
    else
      let parts := db.participants.filter (fun p => !(decide (p.rideId = rideId)))
      let pays := (db.payments.map (nullRefsToRideParticipants rideId db.participants)).filter
        (fun w => !(decide (w.rideId = rideId)))
      let rides := db.rides.filter (fun x => !(decide (x.id = rideId ∧ x.userId = userId)))
      (⟨rides, parts, pays, db.users⟩, .ok (decide (0 < cnt)))

/-- `RideService.DeleteRide`, part_001 version: when the ride has no active
participant it hard-deletes the ride row, which by the schema's referential
actions (migrations 003/004) cascade-deletes the ride's residual participant
and payment rows and nulls payment links to the deleted participants;
otherwise it sets the ride to `cancelled` and cascades `cancelled_ride` onto
active/pending participants. -/
def DeleteRide_v1 (db : DB) (rideId userId : Nat) : DB × Except SvcError Bool :=
  match findRide db.rides rideId with
  | none => (db, .error .rideNotFound)
  | some r =>
    if r.userId ≠ userId then (db, .error .unauthorized)
    else
      let cnt := countActive db.participants rideId
      if 0 < cnt then
        let rides := db.rides.map
          (fun x => if x.id = rideId then { x with status := RideStatus.cancelled } else x)
        let parts := db.participants.map (cancelParticipant rideId)
        (⟨rides, parts, db.payments, db.users⟩, .ok true)
      else
        (⟨db.rides.filter (fun x => !(decide (x.id = rideId))),
          db.participants.filter (fun p => !(decide (p.rideId = rideId))),
          (db.payments.map (nullRefsToRideParticipants rideId db.participants)).filter
            (fun w => !(decide (w.rideId = rideId))),
          db.users⟩, .ok false)

/-! ### Shared helper lemmas -/

theorem find?_map_of_pred_invariant {α : Type} (f : α → α) (q : α → Bool) (l : List α)
    (h : ∀ x, q (f x) = q x) :
    (l.map f).find? q = (l.find? q).map f := by
  induction l with
  | nil => rfl
  | cons a t ih =>
    by_cases hq : q a = true
    · rw [List.map_cons, List.find?_cons_of_pos _ (by rw [h]; exact hq),
        List.find?_cons_of_pos _ hq, Option.map_some']
    · rw [List.map_cons, List.find?_cons_of_neg _ (by rw [h]; simpa using hq),
        List.find?_cons_of_neg _ (by simpa using hq), ih]

theorem map_map_self_of_idem {α : Type} (f : α → α) (hf : ∀ x, f (f x) = f x) (l : List α) :
    (l.map f).map f = l.map f := by
  induction l with
  | nil => rfl
  | cons a t ih => simp only [List.map_cons, hf, ih]

theorem find?_filter_neg_none {α : Type} (p : α → Bool) (l : List α) :
    (l.filter (fun x => !(p x))).find? p = none := by
  induction l with
  | nil => rfl
  | cons a t ih =>
    by_cases hp : p a = true
    · simp [List.filter_cons, hp, ih]
    · simp only [List.filter_cons, hp]
      simp [List.find?_cons_of_neg _ (by simpa using hp), hp, ih]

theorem succeedPayment_intentId (i : Nat) (p : Payment) :
    (succeedPayment i p).intentId = p.intentId := by
  unfold succeedPayment
  split <;> rfl

theorem succeedPayment_participantId (i : Nat) (p : Payment) :
    (succeedPayment i p).participantId = p.participantId := by
  unfold succeedPayment
  split <;> rfl

theorem succeedPayment_idem (i : Nat) (p : Payment) :
    succeedPayment i (succeedPayment i p) = succeedPayment i p := by
  by_cases h : p.intentId = i ∧ p.status = PayStatus.pending
  · simp [succeedPayment, h]
  · simp [succeedPayment, h]

theorem activateParticipant_idem (pid : Nat) (q : Participant) :
    activateParticipant pid (activateParticipant pid q) = activateParticipant pid q := by
  by_cases h : q.id = pid ∧ q.status = PStatus.pendingPayment
  · simp [activateParticipant, h]
  · simp [activateParticipant, h]

/-! ### Concrete databases used by counterexamples and witnesses -/

/-- A one-seat ride by user 10 and no participants yet (claim C1 trace start). -/
def c1db0 : DB := ⟨[⟨1, 10, 1, RideStatus.active⟩], [], [], []⟩

/-- After user 20 joins manually. -/
def c1db1 : DB := (JoinRide c1db0 1 20 100).1

/-- After user 30 also joins manually (capacity counts only `active` rows). -/
def c1db2 : DB := (JoinRide c1db1 1 30 101).1

/-- After user 20 creates a payment intent (Stripe intent 501). -/
def c1db3 : DB := (CreatePaymentIntent c1db2 1 20 200 501).1

/-- After user 30 creates a payment intent (Stripe intent 502). -/
def c1db4 : DB := (CreatePaymentIntent c1db3 1 30 201 502).1

/-- After the `payment_intent.succeeded` webhook for intent 501. -/
def c1db5 : DB := (handlePaymentIntentSucceeded c1db4 501).1

/-- After the `payment_intent.succeeded` webhook for intent 502. -/
def c1db6 : DB := (handlePaymentIntentSucceeded c1db5 502).1

/-- A ride with one active participant and a succeeded payment (claim C2). -/
def c2db : DB :=
  ⟨[⟨1, 10, 3, RideStatus.active⟩], [⟨100, 20, 1, PStatus.active⟩],
   [⟨300, 20, 1, some 100, 501, PayStatus.succeeded, 200, "eur"⟩], []⟩

/-- A pending participant with a pending payment for intent 501 (claim C3). -/
def c3db : DB :=
  ⟨[⟨1, 10, 2, RideStatus.active⟩], [⟨100, 20, 1, PStatus.pendingPayment⟩],
   [⟨300, 20, 1, some 100, 501, PayStatus.pending, 200, "eur"⟩], []⟩

/-- An empty ride and a user with stored Stripe details (claim C4). -/
def c4db : DB :=
  ⟨[⟨1, 10, 2, RideStatus.active⟩], [], [], [⟨20, some "cus", some "pm", false⟩]⟩

/-- A full one-seat ride created by user 10 (claim C5 counterexample). -/
def c5db : DB :=
  ⟨[⟨1, 10, 1, RideStatus.active⟩], [⟨100, 20, 1, PStatus.active⟩], [], []⟩

/-- An empty one-seat ride created by user 10 (claim C5 witness). -/
def c5wdb : DB := ⟨[⟨1, 10, 1, RideStatus.active⟩], [], [], []⟩

/-- A user in `left` status on a ride, with stored Stripe details (claim C6). -/
def c6db : DB :=
  ⟨[⟨1, 10, 2, RideStatus.active⟩], [⟨100, 20, 1, PStatus.left⟩], [],
   [⟨20, some "cus", some "pm", false⟩]⟩

/-- An empty database: no payment row matches any intent id (claim C7). -/
def c7db : DB := ⟨[], [], [], []⟩

/-- A pending participant ready for `CreatePaymentIntent` (claim C9 witness). -/
def c9db : DB :=
  ⟨[⟨1, 10, 2, RideStatus.active⟩], [⟨100, 20, 1, PStatus.pendingPayment⟩], [], []⟩

/-- An empty database for the unknown-intent webhook (claim C10 witness). -/
def c10db : DB := ⟨[], [], [], []⟩

/-! ### Claim theorems -/

/-- Claim C1 (code bug): the no-overbooking invariant fails on the code.  On a
fresh one-seat ride, users 20 and 30 both join manually (both reach
`pending_payment`, since capacity counts only `active` rows), both create
payment intents, and both `payment_intent.succeeded` webhooks are delivered.
`handlePaymentIntentSucceeded` promotes each `pending_payment` row to `active`
with no capacity re-check, so the ride ends with 2 active participants against
`total_seats = 1`. -/
theorem C1_overbooking_trace :
    (JoinRide c1db0 1 20 100).2 = Except.ok ⟨100, 20, 1, PStatus.pendingPayment⟩ ∧
    (JoinRide c1db1 1 30 101).2 = Except.ok ⟨101, 30, 1, PStatus.pendingPayment⟩ ∧
    (handlePaymentIntentSucceeded c1db4 501).2 = Except.ok () ∧
    (handlePaymentIntentSucceeded c1db5 502).2 = Except.ok () ∧
    (findRide c1db6.rides 1).map Ride.totalSeats = some 1 ∧
    countActive c1db6.participants 1 = 2 ∧
    ¬ countActive c1db6.participants 1 ≤ 1 :=
  ⟨rfl, rfl, rfl, rfl, rfl, rfl, by decide⟩

/-- Claim C2 counterexample: the part_002 `DeleteRide` does not implement the
cancellation branch.  On a ride with one `active` participant it hard-deletes
the ride row and every participant row instead of cancelling, so a subsequent
lookup finds no ride at all. -/
theorem C2_deleteRide_v2_counterexample :
    c2db.participants ≠ [] ∧
    (DeleteRide_v2 c2db 1 10).2 = Except.ok true ∧
    (DeleteRide_v2 c2db 1 10).1.rides = [] ∧
    (DeleteRide_v2 c2db 1 10).1.participants = [] ∧
    (DeleteRide_v2 c2db 1 10).1.payments = [] :=
  ⟨by decide, rfl, rfl, rfl, rfl⟩

/-- Claim C5 counterexample: the full-ride check precedes the self-join check,
so the creator (user 10) of an already full ride receives the `Full` rejection,
not `SelfJoin`, from both `JoinRide` and `ValidateRideForJoiningTx`. -/
theorem C5_selfJoin_counterexample :
    (findRide c5db.rides 1).map Ride.userId = some 10 ∧
    (JoinRide c5db 1 10 999).2 = Except.error SvcError.rideFull ∧
    ValidateRideForJoiningTx c5db 1 10 = Except.error SvcError.rideFull ∧
    SvcError.rideFull ≠ SvcError.selfJoin :=
  ⟨rfl, rfl, rfl, by decide⟩

/-- Claim C6 counterexample: a rejoining user (row in `left` status) is moved
straight to `active` by `JoinRideAutomatically` with `needsPayment = false`:
the call succeeds even though the charge outcome is a failure, and no payment
row is created — so no off-session charge was performed. -/
theorem C6_rejoin_counterexample :
    chargeFailed ChargeOutcome.chargeErr = true ∧
    (JoinRideAutomatically c6db 1 20 999 ChargeOutcome.chargeErr 500).2 = Except.ok () ∧
    (JoinRideAutomatically c6db 1 20 999 ChargeOutcome.chargeErr 500).1.payments = [] ∧
    (JoinRideAutomatically c6db 1 20 999 ChargeOutcome.chargeErr 500).1.participants
      = [⟨100, 20, 1, PStatus.active⟩] :=
  ⟨rfl, rfl, rfl, rfl⟩

/-- Claim C7 counterexample: a processing failure on a recognized event (a
`payment_intent.succeeded` whose intent matches no payment row) is mapped by
the HTTP handler to status 400, not to a 5xx status, so the external processor
cannot distinguish it from a signature failure. -/
theorem C7_webhook_status_counterexample :
    (HandleStripeWebhook c7db true (StripeEvent.paymentSucceeded 99)).2
      = Except.error SvcError.paymentRowNotFound ∧
    webhookHTTPStatus (HandleStripeWebhook c7db true (StripeEvent.paymentSucceeded 99)).2 = 400 ∧
    ¬ 500 ≤ webhookHTTPStatus (HandleStripeWebhook c7db true (StripeEvent.paymentSucceeded 99)).2 :=
  ⟨rfl, rfl, by decide⟩

/-- Claim C3 (confirmed): idempotent webhook replay.  When the intent id
matches an existing payment row whose `participant_id` is set, the first
delivery of `payment_intent.succeeded` is acknowledged, and a second delivery
leaves the database state exactly as after the first (zero row mutations) and
is still acknowledged. -/
theorem C3_webhook_replay_idempotent (db : DB) (i : Nat) (p : Payment) (pid : Nat)
    (hfind : db.payments.find? (fun q => decide (q.intentId = i)) = some p)
    (hpid : p.participantId = some pid) :
    (handlePaymentIntentSucceeded db i).2 = Except.ok () ∧
    handlePaymentIntentSucceeded (handlePaymentIntentSucceeded db i).1 i
      = ((handlePaymentIntentSucceeded db i).1, Except.ok ()) := by
  have hq : ∀ x : Payment,
      decide ((succeedPayment i x).intentId = i) = decide (x.intentId = i) := by
    intro x
    rw [succeedPayment_intentId]
  have h1 : (db.payments.map (succeedPayment i)).find? (fun q => decide (q.intentId = i))
      = some (succeedPayment i p) := by
    rw [find?_map_of_pred_invariant _ _ _ hq, hfind, Option.map_some']
  have hpid1 : (succeedPayment i p).participantId = some pid := by
    rw [succeedPayment_participantId, hpid]
  have hpays : ((db.payments.map (succeedPayment i)).map (succeedPayment i))
      = db.payments.map (succeedPayment i) :=
    map_map_self_of_idem _ (succeedPayment_idem i) _
  have hparts : ((db.participants.map (activateParticipant pid)).map (activateParticipant pid))
      = db.participants.map (activateParticipant pid) :=
    map_map_self_of_idem _ (activateParticipant_idem pid) _
  have h2 : ((db.payments.map (succeedPayment i)).map (succeedPayment i)).find?
      (fun q => decide (q.intentId = i)) = some (succeedPayment i p) := by
    rw [hpays, h1]
  constructor
  · simp only [handlePaymentIntentSucceeded, h1, hpid1]
  · simp only [handlePaymentIntentSucceeded, h1, hpid1, h2, hpays, hparts]

/-- Claim C4 (confirmed): atomicity of the automatic charge.  Whenever the
pre-charge phase of `JoinRideAutomatically` completes with `needsPayment =
true` and the off-session charge errors or does not come back `succeeded`,
the whole call returns an error and the database is left exactly in its
pre-call state: the participant row written earlier in the transaction does
not persist and no payment row is created. -/
theorem C4_auto_charge_atomic (db : DB) (rideId userId newPid : Nat)
    (charge : ChargeOutcome) (newPaymentId : Nat) (db1 : DB) (pid : Nat)
    (hphase : joinAutoPhase1 db rideId userId newPid = Except.ok (db1, pid, true))
    (hfail : chargeFailed charge = true) :
    (JoinRideAutomatically db rideId userId newPid charge newPaymentId).1 = db ∧
    ∃ e, (JoinRideAutomatically db rideId userId newPid charge newPaymentId).2
      = Except.error e := by
  cases charge with
  | chargeErr =>
    simp only [JoinRideAutomatically, hphase]
    exact ⟨rfl, SvcError.paymentFailed, rfl⟩
  | chargeStatus intentId ok =>
    cases ok with
    | false =>
      simp only [JoinRideAutomatically, hphase]
      exact ⟨rfl, SvcError.paymentNotSucceeded, rfl⟩
    | true => simp [chargeFailed] at hfail

/-- Claim C5, amended (the counterexample forces the capacity caveat): for an
active ride that is not yet full, the creator attempting to join their own
ride receives the self-join rejection from both `JoinRide` and
`ValidateRideForJoiningTx`, and the database is unchanged. -/
theorem C5_selfJoin_when_not_full (db : DB) (rideId userId newPid : Nat) (r : Ride)
    (hfind : findRide db.rides rideId = some r)
    (hact : r.status = RideStatus.active)
    (hcap : countActive db.participants rideId < r.totalSeats)
    (hself : r.userId = userId) :
    JoinRide db rideId userId newPid = (db, Except.error SvcError.selfJoin) ∧
    ValidateRideForJoiningTx db rideId userId = Except.error SvcError.selfJoin := by
  have h1 : ¬ r.status ≠ RideStatus.active := by simp [hact]
  have h2 : ¬ countActive db.participants rideId ≥ r.totalSeats := Nat.not_le.mpr hcap
  constructor
  · simp only [JoinRide, hfind, h1, h2, hself, if_false, if_true, ite_true, ite_false,
      if_neg h1, if_neg h2, if_pos hself]
  · simp only [ValidateRideForJoiningTx, hfind, if_neg h1, if_neg h2, if_pos hself]

/-- Claim C6, amended (the counterexample forces dropping the re-charge): when
the capacity gate passes, the user has stored Stripe details, and their
existing participant row is in `left` status, `JoinRideAutomatically` revives
the row straight to `active`, never consults the charge outcome, and creates
no payment row — the rejoin path sets `needsPayment = false` and skips both
the Stripe charge and the payment insert. -/
theorem C6_rejoin_skips_charge (db : DB) (rideId userId newPid : Nat)
    (charge : ChargeOutcome) (newPaymentId : Nat) (r : Ride) (u : UserRow)
    (ex : Participant)
    (hvalid : ValidateRideForJoiningTx db rideId userId = Except.ok r)
    (huser : db.users.find? (fun w => decide (w.id = userId ∧ w.deleted = false)) = some u)
    (hcus : hasVal u.stripeCustomerId = true)
    (hpm : hasVal u.stripeDefaultPaymentMethodId = true)
    (hex : findParticipation db.participants userId rideId = some ex)
    (hleft : ex.status = PStatus.left) :
    JoinRideAutomatically db rideId userId newPid charge newPaymentId =
      ({ db with participants := setParticipantStatus ex.id PStatus.active db.participants },
       Except.ok ()) := by
  have hphase : joinAutoPhase1 db rideId userId newPid =
      Except.ok (({ db with
          participants := setParticipantStatus ex.id PStatus.active db.participants },
        ex.id, false)) := by
    simp only [joinAutoPhase1, hvalid, huser, hex, hleft, hcus, hpm]
    simp [hcus, hpm]
  simp only [JoinRideAutomatically, hphase]
  simp

/-- Claim C2, amended (the counterexample forces restricting to the part_001
`DeleteRide`, whose branch condition counts `active` participants): for the
ride's creator, a ride with zero active participants is hard-deleted — the
ride row disappears from lookups and, through the schema's `ON DELETE
CASCADE` / `ON DELETE SET NULL` actions, the ride's residual participant and
payment rows are deleted with it, rows of other rides being kept — while a
ride with at least one active participant stays present with status
`cancelled`, every `active`/`pending_payment` participant of it is flipped to
`cancelled_ride`, and payment rows are unchanged. -/
theorem C2_deleteRide_branch (db : DB) (rideId userId : Nat) (r : Ride)
    (hfind : findRide db.rides rideId = some r)
    (howner : r.userId = userId) :
    (countActive db.participants rideId = 0 →
      (DeleteRide_v1 db rideId userId).2 = Except.ok false ∧
      findRide (DeleteRide_v1 db rideId userId).1.rides rideId = none ∧
      (DeleteRide_v1 db rideId userId).1.participants
        = db.participants.filter (fun p => !(decide (p.rideId = rideId))) ∧
      (DeleteRide_v1 db rideId userId).1.payments
        = (db.payments.map (nullRefsToRideParticipants rideId db.participants)).filter
            (fun w => !(decide (w.rideId = rideId))) ∧
      (∀ p, p ∈ (DeleteRide_v1 db rideId userId).1.participants → p.rideId ≠ rideId) ∧
      (∀ w, w ∈ (DeleteRide_v1 db rideId userId).1.payments → w.rideId ≠ rideId)) ∧
    (0 < countActive db.participants rideId →
      (DeleteRide_v1 db rideId userId).2 = Except.ok true ∧
      findRide (DeleteRide_v1 db rideId userId).1.rides rideId
        = some { r with status := RideStatus.cancelled } ∧
      (DeleteRide_v1 db rideId userId).1.participants
        = db.participants.map (cancelParticipant rideId) ∧
      (DeleteRide_v1 db rideId userId).1.payments = db.payments) := by
  have hne : ¬ r.userId ≠ userId := by simp [howner]
  constructor
  · intro hzero
    have hnpos : ¬ 0 < countActive db.participants rideId := by omega
    refine ⟨?_, ?_, ?_, ?_, ?_, ?_⟩ <;>
      simp only [DeleteRide_v1, hfind, if_neg hne, if_neg hnpos]
    · exact find?_filter_neg_none _ _
    · intro p hp
      have hmem := List.mem_filter.mp hp
      simpa using hmem.2
    · intro w hw
      have hmem := List.mem_filter.mp hw
      simpa using hmem.2
  · intro hpos
    have hid : r.id = rideId := by
      have := List.find?_some hfind
      simpa using this
    refine ⟨?_, ?_, ?_, ?_⟩ <;>
      simp only [DeleteRide_v1, hfind, if_neg hne, if_pos hpos]
    have hq : ∀ x : Ride,
        decide ((if x.id = rideId then { x with status := RideStatus.cancelled } else x).id
          = rideId) = decide (x.id = rideId) := by
      intro x
      by_cases hx : x.id = rideId <;> simp [hx]
    unfold findRide
    rw [find?_map_of_pred_invariant _ _ _ hq]
    unfold findRide at hfind
    rw [hfind, Option.map_some', if_pos hid]

/-- Claim C7, amended (the counterexample forces collapsing the classes): the
HTTP webhook endpoint answers 400 for a failed signature verification, but it
also answers 400 — never any 5xx status — for every other error the service
reports, processing failures included, and 200 on success; the caller cannot
tell the two failure classes apart. -/
theorem C7_webhook_status_400 (db : DB) (sig : Bool) (ev : StripeEvent) :
    (webhookHTTPStatus (HandleStripeWebhook db sig ev).2 = 200 ∨
     webhookHTTPStatus (HandleStripeWebhook db sig ev).2 = 400) ∧
    (sig = false → webhookHTTPStatus (HandleStripeWebhook db sig ev).2 = 400) ∧
    (∀ e, (HandleStripeWebhook db sig ev).2 = Except.error e →
      webhookHTTPStatus (HandleStripeWebhook db sig ev).2 = 400) ∧
    webhookHTTPStatus (HandleStripeWebhook db sig ev).2 < 500 := by
  have hcases : ∀ x : Except SvcError Unit,
      webhookHTTPStatus x = 200 ∨ webhookHTTPStatus x = 400 := by
    intro x
    cases x with
    | ok v => exact Or.inl rfl
    | error e => exact Or.inr rfl
  refine ⟨hcases _, ?_, ?_, ?_⟩
  · intro hs
    subst hs
    simp [HandleStripeWebhook, webhookHTTPStatus]
  · intro e he
    rw [he]
    rfl
  · rcases hcases (HandleStripeWebhook db sig ev).2 with h | h <;> omega

/-- Claim C8 (confirmed): frame condition of the charge-failed webhook.  The
handler touches only the payments table, mapping the guarded
`pending → failed` transition over the rows matching the intent id; the
participant rows (in particular a linked `pending_payment` participant), the
rides and the users are untouched, no payment row is created or deleted, and
the handler acknowledges. -/
theorem C8_failed_webhook_frame (db : DB) (i : Nat) :
    (handlePaymentIntentFailed db i).1.participants = db.participants ∧
    (handlePaymentIntentFailed db i).1.rides = db.rides ∧
    (handlePaymentIntentFailed db i).1.users = db.users ∧
    (handlePaymentIntentFailed db i).2 = Except.ok () ∧
    (handlePaymentIntentFailed db i).1.payments = db.payments.map (failPayment i) ∧
    (handlePaymentIntentFailed db i).1.payments.length = db.payments.length :=
  ⟨rfl, rfl, rfl, rfl, rfl, List.length_map _ _⟩

theorem joinAutoPhase1_payments_eq (db : DB) (rideId userId newPid : Nat)
    (db1 : DB) (pid : Nat) (b : Bool)
    (h : joinAutoPhase1 db rideId userId newPid = Except.ok (db1, pid, b)) :
    db1.payments = db.payments := by
  unfold joinAutoPhase1 at h
  split at h
  · exact absurd h (by simp)
  · split at h
    · exact absurd h (by simp)
    · split at h
      · exact absurd h (by simp)
      · split at h
        · exact absurd h (by simp)
        · split at h
          · split at h
            · exact absurd h (by simp)
            · exact absurd h (by simp)
            · simp only [Except.ok.injEq, Prod.mk.injEq] at h
              rw [← h.1]
            · exact absurd h (by simp)
          · simp only [Except.ok.injEq, Prod.mk.injEq] at h
            rw [← h.1]

/-- Claim C9 (confirmed, implicit): every payment row created by either flow
carries exactly the fixed amount of 200 minor units in currency `"eur"` — any
payment row present after `CreatePaymentIntent` or `JoinRideAutomatically`
either already existed or has that amount and currency — and the
`CreatePaymentIntent` response reports the same fixed amount and currency. -/
theorem C9_fixed_fee (db : DB) (rideId userId newPaymentId intentId newPid newPaymentId2 : Nat)
    (charge : ChargeOutcome) :
    fixedPaymentAmount = 200 ∧ paymentCurrency = "eur" ∧
    (∀ p, p ∈ (CreatePaymentIntent db rideId userId newPaymentId intentId).1.payments →
      p ∈ db.payments ∨ (p.amount = fixedPaymentAmount ∧ p.currency = paymentCurrency)) ∧
    (∀ resp, (CreatePaymentIntent db rideId userId newPaymentId intentId).2 = Except.ok resp →
      resp.amount = fixedPaymentAmount ∧ resp.currency = paymentCurrency) ∧
    (∀ p, p ∈ (JoinRideAutomatically db rideId userId newPid charge newPaymentId2).1.payments →
      p ∈ db.payments ∨ (p.amount = fixedPaymentAmount ∧ p.currency = paymentCurrency)) := by
  refine ⟨rfl, rfl, ?_, ?_, ?_⟩
  · intro p hp
    unfold CreatePaymentIntent at hp
    split at hp
    · exact Or.inl hp
    · split at hp
      · exact Or.inl hp
      · simp only at hp
        rcases List.mem_append.mp hp with hmem | hmem
        · exact Or.inl hmem
        · rcases List.mem_singleton.mp hmem with rfl
          exact Or.inr ⟨rfl, rfl⟩
  · intro resp hresp
    unfold CreatePaymentIntent at hresp
    split at hresp
    · exact absurd hresp (by simp)
    · split at hresp
      · exact absurd hresp (by simp)
      · simp only at hresp
        rcases (by injection hresp : _ = resp) with rfl
        exact ⟨rfl, rfl⟩
  · intro p hp
    unfold JoinRideAutomatically at hp
    split at hp
    · exact Or.inl hp
    · rename_i db1 pid needsPayment heq
      have hpay := joinAutoPhase1_payments_eq db rideId userId newPid db1 pid needsPayment heq
      split at hp
      · split at hp
        · exact Or.inl hp
        · split at hp
          · exact Or.inl hp
          · simp only at hp
            rw [hpay] at hp
            rcases List.mem_append.mp hp with hmem | hmem
            · exact Or.inl hmem
            · rcases List.mem_singleton.mp hmem with rfl
              exact Or.inr ⟨rfl, rfl⟩
      · simp only at hp
        rw [hpay] at hp
        exact Or.inl hp

/-- Claim C10 (confirmed, implicit): a `payment_intent.succeeded` event whose
intent id matches no payment row is not acknowledged: the guarded payment
update matches zero rows (tolerated), but the subsequent lookup of the linked
participant finds no row, so the handler aborts the transaction, leaving the
database unchanged.  Duplicate deliveries and unrecognized event types, by
contrast, are acknowledged (the latter shown here; the former is claim C3). -/
theorem C10_unknown_intent_rejected (db : DB) (i : Nat)
    (hnone : db.payments.find? (fun q => decide (q.intentId = i)) = none) :
    handlePaymentIntentSucceeded db i = (db, Except.error SvcError.paymentRowNotFound) ∧
    HandleStripeWebhook db true (StripeEvent.paymentSucceeded i)
      = (db, Except.error SvcError.paymentRowNotFound) ∧
    HandleStripeWebhook db true StripeEvent.unrecognized = (db, Except.ok ()) := by
  have hq : ∀ x : Payment,
      decide ((succeedPayment i x).intentId = i) = decide (x.intentId = i) := by
    intro x
    rw [succeedPayment_intentId]
  have h1 : (db.payments.map (succeedPayment i)).find? (fun q => decide (q.intentId = i))
      = none := by
    rw [find?_map_of_pred_invariant _ _ _ hq, hnone, Option.map_none']
  have h2 : handlePaymentIntentSucceeded db i
      = (db, Except.error SvcError.paymentRowNotFound) := by
    simp only [handlePaymentIntentSucceeded, h1]
  exact ⟨h2, by simp only [HandleStripeWebhook]; simpa using h2, rfl⟩

/-! ### Witnesses: the claim theorems applied at concrete inputs -/

/-- Claim C2 witness: the branch theorem applied to a ride with one active
participant. -/
theorem C2_deleteRide_branch_witness :
    (DeleteRide_v1 c2db 1 10).2 = Except.ok true ∧
    findRide (DeleteRide_v1 c2db 1 10).1.rides 1 = some ⟨1, 10, 3, RideStatus.cancelled⟩ ∧
    (DeleteRide_v1 c2db 1 10).1.participants = c2db.participants.map (cancelParticipant 1) ∧
    (DeleteRide_v1 c2db 1 10).1.payments = c2db.payments :=
  (C2_deleteRide_branch c2db 1 10 ⟨1, 10, 3, RideStatus.active⟩ rfl rfl).2 (by decide)

/-- Claim C3 witness: the replay theorem applied to a concrete pending
payment for intent 501 linked to participant 100. -/
theorem C3_webhook_replay_idempotent_witness :
    (handlePaymentIntentSucceeded c3db 501).2 = Except.ok () ∧
    handlePaymentIntentSucceeded (handlePaymentIntentSucceeded c3db 501).1 501
      = ((handlePaymentIntentSucceeded c3db 501).1, Except.ok ()) :=
  C3_webhook_replay_idempotent c3db 501
    ⟨300, 20, 1, some 100, 501, PayStatus.pending, 200, "eur"⟩ 100 rfl rfl

/-- Claim C4 witness: a fresh join whose off-session charge errors leaves
`c4db` untouched. -/
theorem C4_auto_charge_atomic_witness :
    (JoinRideAutomatically c4db 1 20 100 ChargeOutcome.chargeErr 500).1 = c4db ∧
    ∃ e, (JoinRideAutomatically c4db 1 20 100 ChargeOutcome.chargeErr 500).2
      = Except.error e :=
  C4_auto_charge_atomic c4db 1 20 100 ChargeOutcome.chargeErr 500
    ⟨[⟨1, 10, 2, RideStatus.active⟩], [⟨100, 20, 1, PStatus.active⟩], [],
     [⟨20, some "cus", some "pm", false⟩]⟩ 100 rfl rfl

/-- Claim C5 witness: the creator of an empty one-seat ride is rejected with
the self-join error. -/
theorem C5_selfJoin_when_not_full_witness :
    JoinRide c5wdb 1 10 999 = (c5wdb, Except.error SvcError.selfJoin) ∧
    ValidateRideForJoiningTx c5wdb 1 10 = Except.error SvcError.selfJoin :=
  C5_selfJoin_when_not_full c5wdb 1 10 999 ⟨1, 10, 1, RideStatus.active⟩ rfl rfl
    (by decide) rfl

/-- Claim C6 witness: the rejoin theorem applied at `c6db`, with a charge
outcome that would have succeeded — the result is identical for every
outcome, since the charge is never consulted. -/
theorem C6_rejoin_skips_charge_witness :
    JoinRideAutomatically c6db 1 20 999 (ChargeOutcome.chargeStatus 7 true) 500 =
      ({ c6db with participants := setParticipantStatus 100 PStatus.active c6db.participants },
       Except.ok ()) :=
  C6_rejoin_skips_charge c6db 1 20 999 (ChargeOutcome.chargeStatus 7 true) 500
    ⟨1, 10, 2, RideStatus.active⟩ ⟨20, some "cus", some "pm", false⟩
    ⟨100, 20, 1, PStatus.left⟩ rfl rfl rfl rfl rfl rfl

/-- Claim C7 witness: an invalid signature on any event yields status 400. -/
theorem C7_webhook_status_400_witness :
    webhookHTTPStatus (HandleStripeWebhook c7db false StripeEvent.unrecognized).2 = 400 :=
  (C7_webhook_status_400 c7db false StripeEvent.unrecognized).2.1 rfl

/-- Claim C9 witness: the payment row created by `CreatePaymentIntent` on
`c9db` carries the fixed amount and currency. -/
theorem C9_fixed_fee_witness :
    (⟨300, 20, 1, some 100, 777, PayStatus.pending, 200, "eur"⟩ : Payment) ∈ c9db.payments ∨
    ((⟨300, 20, 1, some 100, 777, PayStatus.pending, 200, "eur"⟩ : Payment).amount
        = fixedPaymentAmount ∧
     (⟨300, 20, 1, some 100, 777, PayStatus.pending, 200, "eur"⟩ : Payment).currency
        = paymentCurrency) :=
  (C9_fixed_fee c9db 1 20 300 777 101 301 ChargeOutcome.chargeErr).2.2.1
    ⟨300, 20, 1, some 100, 777, PayStatus.pending, 200, "eur"⟩ (by decide)

/-- Claim C10 witness: intent 99 matches nothing in the empty database. -/
theorem C10_unknown_intent_rejected_witness :
    handlePaymentIntentSucceeded c10db 99 = (c10db, Except.error SvcError.paymentRowNotFound) ∧
    HandleStripeWebhook c10db true (StripeEvent.paymentSucceeded 99)
      = (c10db, Except.error SvcError.paymentRowNotFound) ∧
    HandleStripeWebhook c10db true StripeEvent.unrecognized = (c10db, Except.ok ()) :=
  C10_unknown_intent_rejected c10db 99 rfl

end Rideshare
